import Mathlib

/-!
Verification of the platypus memcached-origin server against its
natural-language specification.  The Rust sources are shallowly embedded:
pure functions become Lean functions, stateful code becomes explicit state
passing, machine integers become `Nat` with explicit `% 2 ^ w` where
overflow matters, and fallible code returns an explicit result type.
Byte buffers are `List Nat` (each element conceptually < 256).
-/

/-! ### Association-list model of `std::collections::HashMap`

Lookup returns the value stored for a key; update replaces in place or
appends.  Only lookup/insert are used by the embedded code, so iteration
order never matters for the modelled claims. -/

def lookupA {α : Type} : List (String × α) → String → Option α
| [], _ => none
| (k, v) :: rest, key => if k = key then some v else lookupA rest key

def updateA {α : Type} : List (String × α) → String → α → List (String × α)
| [], key, v => [(key, v)]
| (k, w) :: rest, key, v =>
    if k = key then (k, v) :: rest else (k, w) :: updateA rest key v

/-! ### UTF-8 encoding and decoding

Models Rust `String::into_bytes` / `String::from_utf8` (the standard
library, external to the repository): standard UTF-8 with rejection of
overlong forms, surrogates and out-of-range code points. -/

def charUtf8 (c : Char) : List Nat :=
  let n := c.toNat
  if n < 0x80 then [n]
  else if n < 0x800 then [0xC0 + n / 64, 0x80 + n % 64]
  else if n < 0x10000 then
    [0xE0 + n / 4096, 0x80 + n / 64 % 64, 0x80 + n % 64]
  else
    [0xF0 + n / 262144, 0x80 + n / 4096 % 64, 0x80 + n / 64 % 64, 0x80 + n % 64]

def utf8Encode (s : String) : List Nat :=
  (s.data.map charUtf8).flatten

def utf8DecodeList : List Nat → Option (List Char)
| [] => some []
| b :: rest =>
    if b < 0x80 then
      (utf8DecodeList rest).map (fun cs => Char.ofNat b :: cs)
    else if b < 0xC2 then none
    else if b < 0xE0 then
      match rest with
      | c :: rest2 =>
          if 0x80 ≤ c ∧ c < 0xC0 then
            (utf8DecodeList rest2).map
              (fun cs => Char.ofNat ((b - 0xC0) * 64 + (c - 0x80)) :: cs)
          else none
      | [] => none
    else if b < 0xF0 then
      match rest with
      | c :: d :: rest2 =>
          let lo := if b = 0xE0 then 0xA0 else 0x80
          let hi := if b = 0xED then 0x9F else 0xBF
          if lo ≤ c ∧ c ≤ hi ∧ 0x80 ≤ d ∧ d < 0xC0 then
            (utf8DecodeList rest2).map
              (fun cs =>
                Char.ofNat ((b - 0xE0) * 4096 + (c - 0x80) * 64 + (d - 0x80)) :: cs)
          else none
      | _ => none
    else if b < 0xF5 then
      match rest with
      | c :: d :: e :: rest2 =>
          let lo := if b = 0xF0 then 0x90 else 0x80
          let hi := if b = 0xF4 then 0x8F else 0xBF
          if lo ≤ c ∧ c ≤ hi ∧ 0x80 ≤ d ∧ d < 0xC0 ∧ 0x80 ≤ e ∧ e < 0xC0 then
            (utf8DecodeList rest2).map
              (fun cs =>
                Char.ofNat
                  ((b - 0xF0) * 262144 + (c - 0x80) * 4096 +
                    (d - 0x80) * 64 + (e - 0x80)) :: cs)
          else none
      | _ => none
    else none

def utf8Decode (l : List Nat) : Option String :=
  (utf8DecodeList l).map (fun cs => String.mk cs)

example : utf8Decode [0x74, 0x65, 0x73, 0x74] = some "test" := by decide
example : utf8Encode "test" = [0x74, 0x65, 0x73, 0x74] := by decide

/-! ## Wire protocol (src/platypus/src/protocol/) -/

namespace Protocol

/-- `MetaFlag` from src/platypus/src/protocol/mod.rs. -/
inductive MetaFlag : Type
| baseEncoded
| returnCas
| returnFlags
| returnHit
| returnKey
| returnLastAccess
| noReply
| returnSize
| returnTtl
| noLruBump
| returnValue
| opaqueFlag (token : String)
| vivifyOnMiss (ttl : Nat)
| recacheWin (ttl : Nat)
| updateTtl (ttl : Nat)
| setCas (cas : Nat)
deriving DecidableEq

/-- `Command` from src/platypus/src/protocol/mod.rs. -/
inductive Command : Type
| get (keys : List String)
| gets (keys : List String)
| gat (exptime : Nat) (keys : List String)
| gats (exptime : Nat) (keys : List String)
| metaGet (key : String) (flags : List MetaFlag)
| metaNoOp
| version
| stats (arg : Option String)
| touch (key : String) (exptime : Nat)
| quit
deriving DecidableEq

/-- `ProtocolType` from src/platypus/src/protocol/mod.rs; `opq` is the
binary request's opaque field (u32, modelled as `Nat`). -/
inductive ProtocolType : Type
| text
| binary (opq : Nat)
| meta
deriving DecidableEq

/-- `CommandContext` from src/platypus/src/protocol/mod.rs. -/
structure CommandContext : Type where
  command : Command
  protocol : ProtocolType
deriving DecidableEq

/-- `Item` from src/platypus/src/protocol/mod.rs.  The source stores
`data: Vec<u8>`; the server always fills it with `String::into_bytes` of a
UTF-8 string, so the bytes are modelled as that string (its byte form is
`utf8Encode data`). -/
structure Item : Type where
  key : String
  flags : Nat
  exptime : Nat
  data : String
  cas : Option Nat
deriving DecidableEq

/-- `Response` from src/platypus/src/protocol/mod.rs (the wire-response
enum). -/
inductive Response : Type
| value (item : Item)
| values (items : List Item)
| endR
| stored
| notStored
| exists_
| notFound
| deleted
| touched
| error (msg : String)
| clientError (msg : String)
| serverError (msg : String)
| version (v : String)
| stats (table : List (String × String))
| metaValue (item : Item) (flags : List MetaFlag)
| metaHit (flags : List MetaFlag)
| metaEnd
| metaNoOp
deriving DecidableEq

/-- Result type for the parsers: `ok` models `Ok`, `noCommand` models
`Err(ParseError::NoCommand)`, `err` models any other `Err`, and `crash`
models a Rust panic / abort (unchecked arithmetic overflow in a debug
build, or the subsequent unsatisfiable allocation in release). -/
inductive PResult (α : Type) : Type
| ok (a : α)
| noCommand
| err (msg : String)
| crash
deriving DecidableEq

end Protocol

namespace Protocol

/-- Big-endian u16 serialization (`byteorder::BigEndian`), value reduced
modulo 2^16 as the Rust field type would enforce. -/
def be2 (n : Nat) : List Nat :=
  [n % 2 ^ 16 / 256, n % 256]

/-- Big-endian u32 serialization, value reduced modulo 2^32. -/
def be4 (n : Nat) : List Nat :=
  [n % 2 ^ 32 / 2 ^ 24, n % 2 ^ 24 / 2 ^ 16, n % 2 ^ 16 / 256, n % 256]

/-- Big-endian u64 serialization, value reduced modulo 2^64. -/
def be8 (n : Nat) : List Nat :=
  (be4 (n % 2 ^ 64 / 2 ^ 32)) ++ be4 n

/-- Byte `i` of a buffer (only used after the length guard, so the
default never shows through). -/
def byteAt (data : List Nat) (i : Nat) : Nat :=
  (data.getD i 0) % 256

/-- Big-endian u16 read at offset `i` (`ReadBytesExt::read_u16`). -/
def rd2 (data : List Nat) (i : Nat) : Nat :=
  byteAt data i * 256 + byteAt data (i + 1)

/-- Big-endian u32 read at offset `i` (`ReadBytesExt::read_u32`). -/
def rd4 (data : List Nat) (i : Nat) : Nat :=
  rd2 data i * 2 ^ 16 + rd2 data (i + 2)

/-- Big-endian u64 read at offset `i` (`ReadBytesExt::read_u64`). -/
def rd8 (data : List Nat) (i : Nat) : Nat :=
  rd4 data i * 2 ^ 32 + rd4 data (i + 4)

/-- `BinaryHeader` from src/platypus/src/protocol/binary.rs.  `opq` is the
source's `opaque` field. -/
structure BinaryHeader : Type where
  magic : Nat
  opcode : Nat
  key_length : Nat
  extras_length : Nat
  data_type : Nat
  status_or_reserved : Nat
  total_body_length : Nat
  opq : Nat
  cas : Nat
deriving DecidableEq

/-- `BinaryHeader::new_response` from src/platypus/src/protocol/binary.rs. -/
def BinaryHeader.new_response (opcode key_length extras_length status
    total_body_length cas : Nat) : BinaryHeader :=
  { magic := 0x81
    opcode := opcode
    key_length := key_length
    extras_length := extras_length
    data_type := 0
    status_or_reserved := status
    total_body_length := total_body_length
    opq := 0
    cas := cas }

/-- `BinaryHeader::write_to` from src/platypus/src/protocol/binary.rs:
24 bytes, big-endian fields. -/
def BinaryHeader.write_to (h : BinaryHeader) : List Nat :=
  [h.magic % 256, h.opcode % 256] ++ be2 h.key_length ++
    [h.extras_length % 256, h.data_type % 256] ++ be2 h.status_or_reserved ++
    be4 h.total_body_length ++ be4 h.opq ++ be8 h.cas

/-- `BinaryHeader::read_from` from src/platypus/src/protocol/binary.rs,
reading the 24 header bytes at the start of `data`. -/
def BinaryHeader.read_from (data : List Nat) : BinaryHeader :=
  { magic := byteAt data 0
    opcode := byteAt data 1
    key_length := rd2 data 2
    extras_length := byteAt data 4
    data_type := byteAt data 5
    status_or_reserved := rd2 data 6
    total_body_length := rd4 data 8
    opq := rd4 data 12
    cas := rd8 data 16 }

/-- `parse_binary` from src/platypus/src/protocol/binary.rs.  Returns the
command, the request's opaque value and the number of bytes consumed.
The source computes
`total_body_length - extras_length - key_length` with unchecked `usize`
subtraction; when the subtraction underflows the debug build panics and
the release build wraps and then aborts inside `vec![0u8; value_length]`,
which is modelled as `PResult.crash`. -/
def parse_binary (data : List Nat) : PResult (Command × Nat × Nat) :=
  if data.length < 24 then .err "Binary packet too small"
  else
    let header := BinaryHeader.read_from data
    if header.magic ≠ 0x80 then .err "Invalid magic byte for request"
    else if header.total_body_length < header.extras_length + header.key_length then
      .crash
    else
      let value_length :=
        header.total_body_length - header.extras_length - header.key_length
      -- `read_exact` of extras, key and value fails when the buffer is
      -- shorter than the declared body.
      if data.length < 24 + header.extras_length + header.key_length + value_length
      then .err "failed to fill whole buffer"
      else
        let key_bytes :=
          (data.drop (24 + header.extras_length)).take header.key_length
        let consumed :=
          24 + header.extras_length + header.key_length + value_length
        match utf8Decode key_bytes with
        | none => .err "Invalid key encoding"
        | some key_str =>
          if header.opcode = 0x00 ∨ header.opcode = 0x0c then
            if header.extras_length ≠ 0 then .err "Get command must not have extras"
            else if header.key_length = 0 then .err "Get command must have key"
            else if value_length ≠ 0 then .err "Get command must not have value"
            else .ok (Command.get [key_str], header.opq, consumed)
          else if header.opcode = 0x0b then
            if header.extras_length ≠ 0 ∨ header.key_length ≠ 0 ∨ value_length ≠ 0
            then .err "Version command must not have extras, key, or value"
            else .ok (Command.version, header.opq, consumed)
          else if header.opcode = 0x07 then
            if header.extras_length ≠ 0 ∨ header.key_length ≠ 0 ∨ value_length ≠ 0
            then .err "Quit command must not have extras, key, or value"
            else .ok (Command.quit, header.opq, consumed)
          else if header.opcode = 0x10 then
            if header.extras_length ≠ 0 then .err "Stat command must not have extras"
            else if value_length ≠ 0 then .err "Stat command must not have value"
            else
              let stats_arg := if header.key_length > 0 then some key_str else none
              .ok (Command.stats stats_arg, header.opq, consumed)
          else if header.opcode = 0x04 then
            if header.extras_length ≠ 0 then .err "Delete command must not have extras"
            else if header.key_length = 0 then .err "Delete command must have key"
            else if value_length ≠ 0 then .err "Delete command must not have value"
            else .ok (Command.touch key_str 0, header.opq, consumed)
          else .err "Unsupported binary command opcode"

end Protocol

/-- The 28-byte binary GET for key "test" named by the spec scenario. -/
def c5Bytes : List Nat :=
  [0x80, 0x00, 0x00, 0x04, 0x00, 0x00, 0x00, 0x00,
   0x00, 0x00, 0x00, 0x04, 0x00, 0x00, 0x00, 0x00,
   0x00, 0x00, 0x00, 0x00, 0x00, 0x00, 0x00, 0x00,
   0x74, 0x65, 0x73, 0x74]

example :
    Protocol.parse_binary c5Bytes =
      .ok (Protocol.Command.get ["test"], 0, 28) := by decide

namespace Protocol

/-- One binary `Response::Value` packet as built by
`serialize_binary_response` in src/platypus/src/protocol/binary.rs:
4 flag bytes as extras, no key, the value bytes, `cas` defaulted to 0. -/
def serialize_binary_value_item (item : Item) (opq : Nat) : List Nat :=
  let value_bytes := utf8Encode item.data
  let header : BinaryHeader :=
    { magic := 0x81
      opcode := 0x00
      key_length := 0
      extras_length := 4
      data_type := 0
      status_or_reserved := 0x0000
      total_body_length := 4 + value_bytes.length
      opq := opq
      cas := item.cas.getD 0 }
  header.write_to ++ be4 item.flags ++ value_bytes

/-- `serialize_binary_response` from src/platypus/src/protocol/binary.rs.
Meta responses are not representable and return `Except.error`. -/
def serialize_binary_response (response : Response) (opq : Nat) :
    Except String (List Nat) :=
  match response with
  | .value item => .ok (serialize_binary_value_item item opq)
  | .values items =>
      .ok ((items.map (fun item => serialize_binary_value_item item opq)).flatten)
  | .endR => .ok (BinaryHeader.new_response 0x00 0 0 0x0000 0 0).write_to
  | .notFound => .ok (BinaryHeader.new_response 0x00 0 0 0x0001 0 0).write_to
  | .version v =>
      let version_bytes := utf8Encode v
      .ok ((BinaryHeader.new_response 0x0b 0 0 0x0000 version_bytes.length 0).write_to
        ++ version_bytes)
  | .stats table =>
      let packets :=
        (table.map (fun kv =>
          let key_bytes := utf8Encode kv.1
          let value_bytes := utf8Encode kv.2
          (BinaryHeader.new_response 0x10 key_bytes.length 0 0x0000
              (key_bytes.length + value_bytes.length) 0).write_to
            ++ key_bytes ++ value_bytes)).flatten
      .ok (packets ++ (BinaryHeader.new_response 0x10 0 0 0x0000 0 0).write_to)
  | .error _ => .ok (BinaryHeader.new_response 0x0a 0 0 0x0081 0 0).write_to
  | .clientError _ => .ok (BinaryHeader.new_response 0x0a 0 0 0x0004 0 0).write_to
  | .serverError _ => .ok (BinaryHeader.new_response 0x0a 0 0 0x0082 0 0).write_to
  | .stored => .ok (BinaryHeader.new_response 0x01 0 0 0x0000 0 0).write_to
  | .notStored => .ok (BinaryHeader.new_response 0x01 0 0 0x0005 0 0).write_to
  | .exists_ => .ok (BinaryHeader.new_response 0x01 0 0 0x0002 0 0).write_to
  | .deleted => .ok (BinaryHeader.new_response 0x04 0 0 0x0000 0 0).write_to
  | .touched => .ok (BinaryHeader.new_response 0x0a 0 0 0x0000 0 0).write_to
  | .metaValue _ _ => .error "Meta commands not supported in binary protocol"
  | .metaHit _ => .error "Meta commands not supported in binary protocol"
  | .metaEnd => .error "Meta commands not supported in binary protocol"
  | .metaNoOp => .error "Meta commands not supported in binary protocol"

/-- `MetaFlag::format_response` from src/platypus/src/protocol/mod.rs. -/
def MetaFlag.format_response : MetaFlag → String
| .baseEncoded => "b"
| .returnCas => "c"
| .returnFlags => "f"
| .returnHit => "h"
| .returnKey => "k"
| .returnLastAccess => "l"
| .noReply => "q"
| .returnSize => "s"
| .returnTtl => "t"
| .noLruBump => "u"
| .returnValue => "v"
| .opaqueFlag token => "O" ++ token
| .vivifyOnMiss ttl => "N" ++ toString ttl
| .recacheWin ttl => "R" ++ toString ttl
| .updateTtl ttl => "T" ++ toString ttl
| .setCas cas => "E" ++ toString cas

/-- `Response::format` from src/platypus/src/protocol/mod.rs (the text /
meta serialization).  `item.data.len()` in the source is the byte length
of the data, `(utf8Encode data).length` here. -/
def Response.format : Response → String
| .value item =>
    "VALUE " ++ item.key ++ " " ++ toString item.flags ++ " " ++
      toString (utf8Encode item.data).length ++ "\r\n" ++ item.data ++ "\r\n"
| .values items =>
    (items.map (fun item =>
      "VALUE " ++ item.key ++ " " ++ toString item.flags ++ " " ++
        toString (utf8Encode item.data).length ++
        (match item.cas with
         | some cas => " " ++ toString cas
         | none => "") ++
        "\r\n" ++ item.data ++ "\r\n")).foldl (· ++ ·) "" ++ "END\r\n"
| .endR => "END\r\n"
| .stored => "STORED\r\n"
| .notStored => "NOT_STORED\r\n"
| .exists_ => "EXISTS\r\n"
| .notFound => "NOT_FOUND\r\n"
| .deleted => "DELETED\r\n"
| .touched => "TOUCHED\r\n"
| .error msg => "ERROR " ++ msg ++ "\r\n"
| .clientError msg => "CLIENT_ERROR " ++ msg ++ "\r\n"
| .serverError msg => "SERVER_ERROR " ++ msg ++ "\r\n"
| .version v => "VERSION " ++ v ++ "\r\n"
| .stats table =>
    (table.map (fun kv => "STAT " ++ kv.1 ++ " " ++ kv.2 ++ "\r\n")).foldl
      (· ++ ·) "" ++ "END\r\n"
| .metaValue item flags =>
    "VA " ++ toString (utf8Encode item.data).length ++
      (flags.map (fun f => " " ++ f.format_response)).foldl (· ++ ·) "" ++
      "\r\n" ++ item.data ++ "\r\n"
| .metaHit flags =>
    "HD" ++ (flags.map (fun f => " " ++ f.format_response)).foldl (· ++ ·) "" ++
      "\r\n"
| .metaEnd => "EN\r\n"
| .metaNoOp => "MN\r\n"

/-- `Response::serialize` from src/platypus/src/protocol/mod.rs: text and
meta dialects emit the formatted string's bytes; the binary dialect uses
`serialize_binary_response`, falling back to `b"ERROR\r\n"` when that
fails. -/
def Response.serialize (r : Response) (p : ProtocolType) : List Nat :=
  match p with
  | .text => utf8Encode r.format
  | .meta => utf8Encode r.format
  | .binary opq =>
      match serialize_binary_response r opq with
      | .ok bytes => bytes
      | .error _ => utf8Encode "ERROR\r\n"

end Protocol

namespace Protocol

/-- Rust `str::trim` (ASCII whitespace is all these protocols use). -/
def trimStr (s : String) : String :=
  String.mk
    (((s.data.dropWhile Char.isWhitespace).reverse.dropWhile
      Char.isWhitespace).reverse)

/-- Rust `str::starts_with` for a string pattern. -/
def startsWithStr (s p : String) : Bool :=
  p.data.isPrefixOf s.data

/-- Rust byte slicing `s[n..]` (the callers only slice off ASCII
prefixes, so char-level drop and byte-level drop agree). -/
def dropStr (s : String) (n : Nat) : String :=
  String.mk (s.data.drop n)

/-- Helper for `splitWhitespace`: current word accumulated in reverse. -/
def splitWsAux : List Char → List Char → List String
| [], acc => if acc = [] then [] else [String.mk acc.reverse]
| c :: rest, acc =>
    if c.isWhitespace then
      if acc = [] then splitWsAux rest []
      else String.mk acc.reverse :: splitWsAux rest []
    else splitWsAux rest (c :: acc)

/-- Rust `str::split_whitespace`: split on whitespace, dropping empty
pieces. -/
def splitWhitespace (s : String) : List String :=
  splitWsAux s.data []

/-- Rust `[..].join(" ")` over string slices. -/
def joinSpace : List String → String
| [] => ""
| [x] => x
| x :: rest => x ++ " " ++ joinSpace rest

/-- Rust `str::parse::<uN>`: optional leading `+`, decimal digits only. -/
def parseNatDec (s : String) : Option Nat :=
  let t := if startsWithStr s "+" then dropStr s 1 else s
  if t.data.length = 0 then none
  else if t.data.all Char.isDigit then
    some (t.data.foldl (fun n c => n * 10 + (c.toNat - 48)) 0)
  else none

/-- `str::parse::<u32>` including the range check. -/
def parseU32 (s : String) : Option Nat :=
  (parseNatDec s).bind (fun n => if n < 2 ^ 32 then some n else none)

/-- `str::parse::<u64>` including the range check. -/
def parseU64 (s : String) : Option Nat :=
  (parseNatDec s).bind (fun n => if n < 2 ^ 64 then some n else none)

/-- `text::parse` from src/platypus/src/protocol/text/mod.rs. -/
def text_parse (line : String) : Except String Command :=
  match splitWhitespace (trimStr line) with
  | [] => .error "empty command"
  | cmd :: rest =>
    if cmd = "get" then
      if rest.length < 1 then .error "get requires at least one key"
      else .ok (Command.get rest)
    else if cmd = "gets" then
      if rest.length < 1 then .error "gets requires at least one key"
      else .ok (Command.gets rest)
    else if cmd = "gat" then
      match rest with
      | e :: keys =>
        if keys.length < 1 then .error "gat requires exptime and at least one key"
        else
          match parseU32 e with
          | some exptime => .ok (Command.gat exptime keys)
          | none => .error "invalid exptime in gat command"
      | [] => .error "gat requires exptime and at least one key"
    else if cmd = "gats" then
      match rest with
      | e :: keys =>
        if keys.length < 1 then .error "gats requires exptime and at least one key"
        else
          match parseU32 e with
          | some exptime => .ok (Command.gats exptime keys)
          | none => .error "invalid exptime in gats command"
      | [] => .error "gats requires exptime and at least one key"
    else if cmd = "version" then .ok Command.version
    else if cmd = "stats" then
      if rest.length > 0 then .ok (Command.stats (some (joinSpace rest)))
      else .ok (Command.stats none)
    else if cmd = "touch" then
      match rest with
      | [key, e] =>
        match parseU32 e with
        | some exptime => .ok (Command.touch key exptime)
        | none => .error "invalid exptime in touch command"
      | _ => .error "touch requires key and exptime"
    else if cmd = "quit" then .ok Command.quit
    else .error "unknown command"

/-- Single-character meta flags from `parse_meta_flags` in
src/platypus/src/protocol/meta.rs. -/
def meta_flag_of_char (c : Char) : Except String MetaFlag :=
  if c = 'b' then .ok .baseEncoded
  else if c = 'c' then .ok .returnCas
  else if c = 'f' then .ok .returnFlags
  else if c = 'h' then .ok .returnHit
  else if c = 'k' then .ok .returnKey
  else if c = 'l' then .ok .returnLastAccess
  else if c = 'q' then .ok .noReply
  else if c = 's' then .ok .returnSize
  else if c = 't' then .ok .returnTtl
  else if c = 'u' then .ok .noLruBump
  else if c = 'v' then .ok .returnValue
  else .error "unknown meta flag"

/-- `parse_meta_flags` from src/platypus/src/protocol/meta.rs. -/
def parse_meta_flags : List String → Except String (List MetaFlag)
| [] => .ok []
| part :: rest =>
    let this : Except String (List MetaFlag) :=
      if startsWithStr part "O" then
        let token := dropStr part 1
        if token = "" then .error "O flag requires token"
        else .ok [.opaqueFlag token]
      else if startsWithStr part "N" then
        match parseU32 (dropStr part 1) with
        | some ttl => .ok [.vivifyOnMiss ttl]
        | none => .error "N flag requires numeric TTL"
      else if startsWithStr part "R" then
        match parseU32 (dropStr part 1) with
        | some ttl => .ok [.recacheWin ttl]
        | none => .error "R flag requires numeric TTL"
      else if startsWithStr part "T" then
        match parseU32 (dropStr part 1) with
        | some ttl => .ok [.updateTtl ttl]
        | none => .error "T flag requires numeric TTL"
      else if startsWithStr part "E" then
        match parseU64 (dropStr part 1) with
        | some cas => .ok [.setCas cas]
        | none => .error "E flag requires numeric CAS"
      else part.data.mapM meta_flag_of_char
    match this, parse_meta_flags rest with
    | .ok fs, .ok more => .ok (fs ++ more)
    | .error e, _ => .error e
    | _, .error e => .error e

/-- `meta::parse` from src/platypus/src/protocol/meta.rs. -/
def meta_parse (line : String) : Except String Command :=
  match splitWhitespace (trimStr line) with
  | [] => .error "empty command"
  | cmd :: rest =>
    if cmd = "mg" then
      match rest with
      | [] => .error "mg requires key"
      | key :: flagParts => (parse_meta_flags flagParts).map (Command.metaGet key)
    else if cmd = "mn" then
      if rest = [] then .ok Command.metaNoOp else .error "mn takes no arguments"
    else .error "unknown meta command"

/-- `parse_text` from src/platypus/src/protocol/mod.rs: dispatches a
trimmed line to the meta or the text parser. -/
def parse_text (line : String) : PResult CommandContext :=
  let trimmed := trimStr line
  if trimmed = "" then .noCommand
  else if startsWithStr trimmed "mg " ∨ trimmed = "mn" then
    match meta_parse trimmed with
    | .ok command => .ok ⟨command, .meta⟩
    | .error e => .err e
  else
    match text_parse trimmed with
    | .ok command => .ok ⟨command, .text⟩
    | .error e => .err e

/-- `tokio::io::AsyncBufReadExt::read_line`: the bytes up to and
including the first newline (or the whole remaining buffer), decoded as
UTF-8; invalid UTF-8 is an I/O error. -/
def read_line (data : List Nat) : Except String String :=
  let lineBytes :=
    match data.findIdx? (fun b => b = 0x0A) with
    | some i => data.take (i + 1)
    | none => data
  match utf8Decode lineBytes with
  | some s => .ok s
  | none => .error "stream did not contain valid UTF-8"

/-- `recv_command` from src/platypus/src/protocol/mod.rs, modelled as a
pure function of the peeked buffer contents. -/
def recv_command (data : List Nat) : PResult CommandContext :=
  match data with
  | [] => .noCommand
  | b :: _ =>
    if b = 0x80 ∨ b = 0x81 then
      match parse_binary data with
      | .ok (command, opq, _) => .ok ⟨command, .binary opq⟩
      | .noCommand => .noCommand
      | .err e => .err e
      | .crash => .crash
    else
      match read_line data with
      | .ok line => parse_text line
      | .error e => .err e

end Protocol

example :
    Protocol.recv_command c5Bytes =
      .ok ⟨Protocol.Command.get ["test"], Protocol.ProtocolType.binary 0⟩ := by
  decide

example :
    Protocol.recv_command (utf8Encode "get test\r\n") =
      .ok ⟨Protocol.Command.get ["test"], Protocol.ProtocolType.text⟩ := by
  decide

/-! ## Refresh engine (src/platypus/src/monitor.rs)

Time is modelled as a `Nat` of seconds; every function that reads
`Instant::now()` in the source takes the current instant `now` as an
explicit argument.  The async getter is modelled as a pure function
`String → Option V`; the `Writer` target is modelled by a `hasTarget`
flag plus the list of write jobs a call hands to the writer channel. -/

namespace Monitor

/-- `WriteJob` from src/platypus/src/writer.rs (what `Writer::send`
enqueues). -/
structure WriteJob (V : Type) : Type where
  key : String
  value : V
  ttl_secs : Nat
deriving DecidableEq

/-- `MonitorTask` from src/platypus/src/monitor.rs.  `untl` is the
source's `until` field (a Lean keyword). -/
structure MonitorTask (V : Type) : Type where
  interval : Nat
  ttl : Nat
  untl : Nat
  updated_at : Nat
  key : Option String
  last_result : Option V
  getter : String → Option V
  hasTarget : Bool

/-- `MonitorTask::new` (defaults: interval 5 s, ttl 12 s, `until` and
`updated_at` stamped with the current instant). -/
def MonitorTask.new {V : Type} (now : Nat) (getter : String → Option V) :
    MonitorTask V :=
  { interval := 5
    ttl := 12
    untl := now
    updated_at := now
    key := none
    last_result := none
    getter := getter
    hasTarget := false }

/-- `MonitorTask::has_expired`: `Instant::now().gt(&until)`. -/
def MonitorTask.has_expired {V : Type} (t : MonitorTask V) (now : Nat) : Bool :=
  now > t.untl

/-- `MonitorTask::touch`: `until = Instant::now() + ttl`. -/
def MonitorTask.touch {V : Type} (t : MonitorTask V) (now : Nat) : MonitorTask V :=
  { t with untl := now + t.ttl }

/-- `MonitorTask::interval` builder. -/
def MonitorTask.setInterval {V : Type} (t : MonitorTask V) (interval : Nat) :
    MonitorTask V :=
  { t with interval := interval }

/-- `MonitorTask::key` builder. -/
def MonitorTask.setKey {V : Type} (t : MonitorTask V) (key : String) :
    MonitorTask V :=
  { t with key := some key }

/-- `MonitorTask::target` builder. -/
def MonitorTask.setTarget {V : Type} (t : MonitorTask V) : MonitorTask V :=
  { t with hasTarget := true }

/-- `MonitorTask::get`: call the getter for the task's key; on a value,
stamp `updated_at`, cache it in `last_result` and enqueue a write job to
the target writer when one is attached. -/
def MonitorTask.get {V : Type} (t : MonitorTask V) (now : Nat) :
    Option V × MonitorTask V × List (WriteJob V) :=
  match t.key with
  | some k =>
    match t.getter k with
    | some value =>
        (some value,
         { t with updated_at := now, last_result := some value },
         if t.hasTarget then [⟨k, value, t.ttl⟩] else [])
    | none => (none, t, [])
  | none => (none, t, [])

/-- `MonitorTask::tick`: nothing for an expired task; otherwise invoke
`get` when `now > updated_at + interval`.  The last component records
whether `get` (the source) was invoked. -/
def MonitorTask.tick {V : Type} (t : MonitorTask V) (now : Nat) :
    Bool × MonitorTask V × List (WriteJob V) × Bool :=
  if t.has_expired now then (false, t, [], false)
  else if now > t.updated_at + t.interval then
    let r := t.get now
    (true, r.2.1, r.2.2, true)
  else (true, t, [], false)

/-- The task table guarded by `MonitorTasks`'s mutex. -/
def TaskMap (V : Type) : Type := List (String × MonitorTask V)

/-- Result of one engine operation: the returned value, the new task
table, whether the source getter was invoked, and the write jobs handed
to the writer. -/
structure EngineStep (V : Type) : Type where
  value : Option V
  tasks : TaskMap V
  invoked : Bool
  jobs : List (WriteJob V)

/-- The create path of `MonitorTasks::get_or_create_task` (everything
after the existing-task early return). -/
def create_task {V : Type} (tasks : TaskMap V) (key : String)
    (getter : String → Option V) (hasWriter : Bool) (now : Nat) :
    EngineStep V :=
  let mt := ((MonitorTask.new now getter).setInterval 5).setKey key
  let mt := if hasWriter then mt.setTarget else mt
  let mt := mt.touch now
  let r := mt.get now
  ⟨r.1, updateA tasks key r.2.1, true, r.2.2⟩

/-- `MonitorTasks::get_or_create_task` from src/platypus/src/monitor.rs
(the same logic as `Service::get_or_create_monitor_task` in
src/platypus/src/service.rs and `Server::get_or_create_monitor_task` in
src/platypus/src/server.rs): an existing task is touched and its cached
`last_result` returned; a missing value falls through to creating and
fetching a fresh task that replaces the entry. -/
def get_or_create_task {V : Type} (tasks : TaskMap V) (key : String)
    (getter : String → Option V) (hasWriter : Bool) (now : Nat) :
    EngineStep V :=
  match lookupA tasks key with
  | some task =>
    let touched := task.touch now
    match touched.last_result with
    | some ret => ⟨some ret, updateA tasks key touched, false, []⟩
    | none => create_task (updateA tasks key touched) key getter hasWriter now
  | none => create_task tasks key getter hasWriter now

/-- `MonitorTasks::tick` / the server's 1 Hz monitor loop: tick every
non-expired task, collecting the write jobs. -/
def tick_all {V : Type} (tasks : TaskMap V) (now : Nat) :
    TaskMap V × List (WriteJob V) :=
  tasks.foldr
    (fun kt acc =>
      if kt.2.has_expired now then (kt :: acc.1, acc.2)
      else
        let r := kt.2.tick now
        ((kt.1, r.2.1) :: acc.1, r.2.2.1 ++ acc.2))
    ([], [])

end Monitor

/-! ## Command handler and per-connection step
(src/platypus/src/server.rs) -/

namespace Server

open Monitor Protocol

/-- Result of `Server::handle_command`: the optional wire response
(`None` models the Quit sentinel that closes the connection), the task
table afterwards, the write jobs enqueued, and how many times the source
getter was invoked. -/
structure HandleResult : Type where
  response : Option Response
  tasks : TaskMap String
  jobs : List (WriteJob String)
  invocations : Nat

/-- The per-key loop of the `Get`/`Gets` branches: items for hits in key
order, misses elided. -/
def get_items (tasks : TaskMap String) (getter : String → Option String)
    (hasWriter : Bool) (now : Nat) (cas : Option Nat) :
    List String → List Item × TaskMap String × List (WriteJob String) × Nat
| [] => ([], tasks, [], 0)
| key :: rest =>
    let r := get_or_create_task tasks key getter hasWriter now
    let next := get_items r.tasks getter hasWriter now cas rest
    let items :=
      match r.value with
      | some v => ⟨key, 0, 0, v, cas⟩ :: next.1
      | none => next.1
    (items, next.2.1, r.jobs ++ next.2.2.1,
     (if r.invoked then 1 else 0) + next.2.2.2)

/-- `Server::handle_command` from src/platypus/src/server.rs (the
`Service::handle_command` in src/platypus/src/service.rs is the same
modulo the `Get` miss case).  The getter is the configured source
closure; `version` is the configured version string. -/
def handle_command (cmd : Command) (tasks : TaskMap String)
    (getter : String → Option String) (hasWriter : Bool) (version : String)
    (now : Nat) : HandleResult :=
  match cmd with
  | .get keys =>
      let r := get_items tasks getter hasWriter now none keys
      ⟨some (.values r.1), r.2.1, r.2.2.1, r.2.2.2⟩
  | .gets keys =>
      let r := get_items tasks getter hasWriter now (some 12345) keys
      ⟨some (.values r.1), r.2.1, r.2.2.1, r.2.2.2⟩
  | .gat exptime keys =>
      ⟨some (.values (keys.map (fun k => ⟨k, 0, exptime, "sample_value", none⟩))),
       tasks, [], 0⟩
  | .gats exptime keys =>
      ⟨some (.values (keys.map (fun k => ⟨k, 0, exptime, "sample_value", some 12345⟩))),
       tasks, [], 0⟩
  | .metaGet key flags =>
      let r := get_or_create_task tasks key getter hasWriter now
      match r.value with
      | some v =>
          ⟨some (.metaValue ⟨key, 0, 0, v, some 12345⟩ flags), r.tasks, r.jobs,
           if r.invoked then 1 else 0⟩
      | none => ⟨some .metaEnd, r.tasks, r.jobs, if r.invoked then 1 else 0⟩
  | .metaNoOp => ⟨some .metaNoOp, tasks, [], 0⟩
  | .version => ⟨some (.version version), tasks, [], 0⟩
  | .stats _ =>
      ⟨some (.stats
        [("version", "0.1.0"), ("curr_connections", "1"),
         ("total_connections", "1"), ("cmd_get", "0"), ("cmd_set", "0")]),
       tasks, [], 0⟩
  | .touch _ _ => ⟨some .touched, tasks, [], 0⟩
  | .quit => ⟨none, tasks, [], 0⟩

/-- One iteration of the per-connection loop in `Server::run`
(src/platypus/src/server.rs lines 156-194): parse the peeked buffer,
dispatch, and serialize the response in the dialect of the command
context; a parse error other than `NoCommand` is answered with
`Response::Error("Parse error")` serialized in the text dialect; a
`NoCommand` is skipped.  The result carries the bytes written back (if
any), the task table and the writer jobs. -/
def server_step (tasks : TaskMap String) (getter : String → Option String)
    (hasWriter : Bool) (version : String) (now : Nat) (data : List Nat) :
    PResult (Option (List Nat) × TaskMap String × List (WriteJob String)) :=
  match recv_command data with
  | .ok ctx =>
      let hr := handle_command ctx.command tasks getter hasWriter version now
      match hr.response with
      | some r => .ok (some (r.serialize ctx.protocol), hr.tasks, hr.jobs)
      | none => .ok (none, hr.tasks, hr.jobs)
  | .noCommand => .ok (none, tasks, [])
  | .err _ =>
      .ok (some ((Response.error "Parse error").serialize .text), tasks, [])
  | .crash => .crash

end Server

/-! ## Requests, sources and the router
(src/platypus/src/{request,response,router}.rs, src/platypus/src/source/) -/

/-- `MonitorConfig` from src/platypus/src/response.rs (durations in
seconds). -/
structure MonitorConfig : Type where
  ttl : Nat
  expiry : Nat
deriving DecidableEq

/-- `MonitorConfig::default()`: zero durations. -/
def MonitorConfig.default : MonitorConfig := ⟨0, 0⟩

/-- `Response` from src/platypus/src/response.rs (the source-call
response; named `SrcResponse` because the wire response already carries
the name). -/
structure SrcResponse : Type where
  monitor_config : MonitorConfig
  value : Option String
  updated_at : Nat
deriving DecidableEq

/-- `Response::new` stamped with the current instant. -/
def SrcResponse.new (now : Nat) : SrcResponse :=
  ⟨MonitorConfig.default, none, now⟩

/-- `Response::with_value` (also re-stamps `updated_at`). -/
def SrcResponse.with_value (r : SrcResponse) (value : String) (now : Nat) :
    SrcResponse :=
  { r with value := some value, updated_at := now }

/-- `Response::with_ttl`. -/
def SrcResponse.with_ttl (r : SrcResponse) (ttl : Nat) : SrcResponse :=
  { r with monitor_config := { r.monitor_config with ttl := ttl } }

/-- `Response::with_expiry`. -/
def SrcResponse.with_expiry (r : SrcResponse) (expiry : Nat) : SrcResponse :=
  { r with monitor_config := { r.monitor_config with expiry := expiry } }

/-- `RuleArgs` from src/platypus/src/source/merge.rs. -/
inductive RuleArgs : Type
| inherit
| replace (args : List (String × String))

/-- `Rule` from src/platypus/src/source/merge.rs. -/
structure MergeRule : Type where
  key : List String
  source : String
  args : RuleArgs

/-- The source registry entries.  Trait objects `Box<dyn Source>` are
modelled as a closed sum of the source variants the claims exercise:
`Echo` (src/platypus/src/source/echo.rs), the function-backed
`FnGetter` (src/platypus/src/source/mod.rs) and `Merge`
(src/platypus/src/source/merge.rs). -/
inductive SourceDef : Type
| echo (cfg : MonitorConfig) (template : String)
| fnSrc (cfg : MonitorConfig) (f : String → Option String)
| mergeSrc (cfg : MonitorConfig) (format : String) (rules : List MergeRule)

/-- `Request` from src/platypus/src/request.rs.  Modelled from the spec:
the `sources` field and its builders (`Request::with_sources`,
`Request::with_captures`, `Request::sources` as used by
src/platypus/src/source/merge.rs) are not under src/; per the spec the
optional handle to the source registry is attached only when a Merge
source needs to invoke siblings. -/
structure Request : Type where
  key : String
  captures : List (String × String)
  sources : Option (List (String × SourceDef))

/-- `Request::new`. -/
def Request.new (key : String) : Request :=
  ⟨key, [], none⟩

/-- `Request::with_captures` (modelled from the spec, see `Request`). -/
def Request.with_captures (r : Request) (captures : List (String × String)) :
    Request :=
  { r with captures := captures }

/-- `Request::with_sources` (modelled from the spec, see `Request`). -/
def Request.with_sources (r : Request)
    (sources : List (String × SourceDef)) : Request :=
  { r with sources := some sources }

/-- A compiled `regex::Regex` (external library), modelled abstractly by
what the router consumes: the named-capture assignment on a match, or
`none` when the regex does not match the key. -/
def Regex : Type := String → Option (List (String × String))

/-- `Request::match_regex` from src/platypus/src/request.rs: on a match,
the captures are the regex's named groups plus the reserved
`$key → key` entry. -/
def Request.match_regex (re : Regex) (key : String) : Option Request :=
  match re key with
  | none => none
  | some caps => some ⟨key, updateA caps "$key" key, none⟩

/-- `Rule` from src/platypus/src/router.rs. -/
structure Rule : Type where
  re : Regex
  source : SourceDef

/-- `Rule::match_key`. -/
def Rule.match_key (r : Rule) (key : String) : Option Request :=
  Request.match_regex r.re key

/-- A `Router` is its ordered rule list (`LinkedList<Rule>`, pushed at
the back by `route`). -/
def Router : Type := List Rule

/-- `Router::rule` from src/platypus/src/router.rs: scan the rules in
insertion order and return the first match together with its rule. -/
def Router.rule : Router → String → Option (Request × Rule)
| [], _ => none
| r :: rest, key =>
    match r.match_key key with
    | some request => some (request, r)
    | none => Router.rule rest key

/-! ## Placeholder substitution and the JSON model -/

/-- Modelled from the spec: `replace_placeholders(template, captures)`
(used by every source but not itself under src/).  The spec, §4.2: a
scan over the characters; `{` opens a placeholder frame (a stack);
`}` pops the top frame, looks the accumulated name up in `captures`,
and, when present, appends the replacement to the next frame (or to the
output when the stack is empty), dropping the frame when absent; any
other character goes to the top frame, or to the output when the stack
is empty.  A stray `}` with no open frame (not covered by the spec) is
kept as literal text. -/
def replace_placeholders (template : String)
    (captures : List (String × String)) : String :=
  (template.data.foldl
    (fun st c =>
      match st with
      | (out, stack) =>
        if c = '{' then (out, "" :: stack)
        else if c = '}' then
          match stack with
          | [] => (out.push c, [])
          | name :: rest =>
            match lookupA captures name with
            | some rep =>
              match rest with
              | [] => (out ++ rep, ([] : List String))
              | top :: rs => (out, (top ++ rep) :: rs)
            | none => (out, rest)
        else
          match stack with
          | [] => (out.push c, [])
          | top :: rs => (out, (top.push c) :: rs))
    (("" : String), ([] : List String))).1

example :
    replace_placeholders "echo1 = {k}" [("k", "test_data")] =
      "echo1 = test_data" := by decide

/-- `serde_json::Value` (external library), restricted to what the Merge
source produces and consumes.  Objects are key-sorted association lists,
mirroring the `BTreeMap` behind `serde_json::Map` in the default
configuration. -/
inductive JValue : Type
| null
| bool (b : Bool)
| num (n : Int)
| str (s : String)
| arr (xs : List JValue)
| obj (fields : List (String × JValue))

/-- Lexicographic order on character lists, modelling the `Ord` the
`BTreeMap` behind `serde_json::Map` uses on `String` (byte order; the
two agree on the ASCII keys these claims use). -/
def charListLt : List Char → List Char → Bool
| [], [] => false
| [], _ :: _ => true
| _ :: _, [] => false
| c :: cs, d :: ds =>
    if c.toNat < d.toNat then true
    else if d.toNat < c.toNat then false
    else charListLt cs ds

/-- String comparison for the JSON object map. -/
def strLt (a b : String) : Bool := charListLt a.data b.data

/-- `serde_json::Map::insert`: sorted insertion, replacing an existing
entry for the key. -/
def mapInsert : List (String × JValue) → String → JValue →
    List (String × JValue)
| [], k, v => [(k, v)]
| (k0, v0) :: rest, k, v =>
    if k = k0 then (k, v) :: rest
    else if strLt k k0 then (k, v) :: (k0, v0) :: rest
    else (k0, v0) :: mapInsert rest k v

/-- `Merge::set_nested_value` from src/platypus/src/source/merge.rs:
set a value at a nested key path, creating intermediate objects; an
existing non-object intermediate leaves the map unchanged. -/
def set_nested_value : List (String × JValue) → List String → JValue →
    List (String × JValue)
| map, [], _ => map
| map, [k], v => mapInsert map k v
| map, k :: k2 :: rest, v =>
    match lookupA map k with
    | some (JValue.obj nested) =>
        mapInsert map k (JValue.obj (set_nested_value nested (k2 :: rest) v))
    | some _ => map
    | none => mapInsert map k (JValue.obj (set_nested_value [] (k2 :: rest) v))

/-- JSON string escaping as `serde_json::to_string` performs it. -/
def escapeJsonChar (c : Char) : String :=
  if c = '"' then "\\\""
  else if c = '\\' then "\\\\"
  else if c = Char.ofNat 10 then "\\n"
  else if c = Char.ofNat 13 then "\\r"
  else if c = Char.ofNat 9 then "\\t"
  else if c.toNat < 0x20 then
    let hexDigit := fun (n : Nat) =>
      if n < 10 then Char.ofNat (48 + n) else Char.ofNat (87 + n)
    String.mk ['\\', 'u', '0', '0', hexDigit (c.toNat / 16), hexDigit (c.toNat % 16)]
  else String.mk [c]

/-- JSON string escaping lifted to strings. -/
def escapeJson (s : String) : String :=
  s.data.foldl (fun acc c => acc ++ escapeJsonChar c) ""

mutual

/-- `serde_json::to_string` (external library): compact serialization. -/
def serializeJson : JValue → String
| .null => "null"
| .bool true => "true"
| .bool false => "false"
| .num n => toString n
| .str s => "\"" ++ escapeJson s ++ "\""
| .arr xs => "[" ++ serializeJsonList xs ++ "]"
| .obj fields => "\x7b" ++ serializeJsonFields fields ++ "\x7d"

/-- Comma-joined serialization of array elements. -/
def serializeJsonList : List JValue → String
| [] => ""
| [x] => serializeJson x
| x :: y :: rest => serializeJson x ++ "," ++ serializeJsonList (y :: rest)

/-- Comma-joined serialization of object fields. -/
def serializeJsonFields : List (String × JValue) → String
| [] => ""
| [kv] => "\"" ++ escapeJson kv.1 ++ "\":" ++ serializeJson kv.2
| kv :: kv2 :: rest =>
    "\"" ++ escapeJson kv.1 ++ "\":" ++ serializeJson kv.2 ++ "," ++
      serializeJsonFields (kv2 :: rest)

end

example : serializeJson (JValue.obj []) = "\x7b\x7d" := by decide

/-! ## Source calls (src/platypus/src/source/) -/

/-- The per-rule child request built inside `Merge::call`
(src/platypus/src/source/merge.rs lines 130-145): `Inherit` forwards the
parent request; `Replace` builds a fresh request with the processed
captures and the same sources handle. -/
def merge_child_request (req : Request)
    (sources : List (String × SourceDef)) (rule : MergeRule) : Request :=
  match rule.args with
  | .inherit => req
  | .replace args =>
      { key := req.key
        captures :=
          args.map (fun kv => (kv.1, replace_placeholders kv.2 req.captures))
        sources := some sources }

/-- The shared `call` of the `Source` trait.  `jsonParse` models
`serde_json::from_str::<Value>` (external library: `some` on valid JSON,
`none` on a parse error); `now` is the instant stamped into responses;
`fuel` bounds the Merge fan-out depth (the real recursion through
sibling sources; a self-referential registry would not terminate in the
source either, and every claim is settled at an adequate fuel).

The `echo` case is `Echo::call` (src/platypus/src/source/echo.rs), the
`fnSrc` case is `FnGetter::call` (src/platypus/src/source/mod.rs), and
the `mergeSrc` case is `Merge::call` (src/platypus/src/source/merge.rs):
build the base response; bail out without a value when the request has
no sources handle; otherwise fold the rules, skipping rules whose source
name is absent, calling each child with the inherited or rebuilt
request, parsing a returned value as JSON (string fallback), inserting
it at the rule's key path, and finally serializing the merged object as
the response value. -/
def SourceDef.call (jsonParse : String → Option JValue) (now : Nat) :
    Nat → SourceDef → Request → SrcResponse
| _, .echo cfg template, req =>
    (((SrcResponse.new now).with_expiry cfg.expiry).with_ttl cfg.ttl).with_value
      (replace_placeholders template req.captures) now
| _, .fnSrc cfg f, req =>
    let response := ((SrcResponse.new now).with_expiry cfg.expiry).with_ttl cfg.ttl
    match f req.key with
    | some value => response.with_value value now
    | none => response
| 0, .mergeSrc cfg _ _, _ =>
    ((SrcResponse.new now).with_expiry cfg.expiry).with_ttl cfg.ttl
| fuel + 1, .mergeSrc cfg _ rules, req =>
    let response := ((SrcResponse.new now).with_expiry cfg.expiry).with_ttl cfg.ttl
    match req.sources with
    | none => response
    | some sources =>
      let merged := rules.foldl
        (fun acc rule =>
          match lookupA sources rule.source with
          | none => acc
          | some src =>
            let source_response :=
              SourceDef.call jsonParse now fuel src
                (merge_child_request req sources rule)
            match source_response.value with
            | none => acc
            | some v =>
              let json_value :=
                match jsonParse v with
                | some parsed => parsed
                | none => JValue.str v
              set_nested_value acc rule.key json_value)
        []
      response.with_value (serializeJson (JValue.obj merged)) now

/-! ## Helper lemmas about the association-list map -/

theorem lookupA_updateA_self {α : Type} (m : List (String × α)) (k : String)
    (v : α) : lookupA (updateA m k v) k = some v := by
  induction m with
  | nil => simp [updateA, lookupA]
  | cons hd tl ih =>
      obtain ⟨k0, w⟩ := hd
      by_cases h : k0 = k
      · simp [updateA, lookupA, h]
      · simp [updateA, lookupA, h, ih]

theorem lookupA_updateA_isSome {α : Type} (m : List (String × α))
    (k k2 : String) (v : α) (h : (lookupA m k2).isSome) :
    (lookupA (updateA m k v) k2).isSome := by
  induction m with
  | nil => simp [lookupA] at h
  | cons hd tl ih =>
      obtain ⟨k0, w⟩ := hd
      by_cases hk : k0 = k
      · subst hk
        by_cases hk2 : k0 = k2
        · simp [updateA, lookupA, hk2]
        · simp [updateA, lookupA, hk2] at h ⊢
          exact h
      · by_cases hk2 : k0 = k2
        · subst hk2
          simp [updateA, lookupA, hk]
        · simp [updateA, lookupA, hk, hk2] at h ⊢
          exact ih h

/-! ## Claims -/

/-- C9: for every key and exptime, handling `Touch(key, exptime)` emits
the `Touched` response and leaves the refresh engine's state unchanged —
no task is created, touched, refreshed or evicted, no writer job is
enqueued, and the source getter is never invoked. -/
theorem c9_touch_is_frame_preserving (key : String) (exptime : Nat)
    (tasks : Monitor.TaskMap String) (getter : String → Option String)
    (hasWriter : Bool) (version : String) (now : Nat) :
    Server.handle_command (Protocol.Command.touch key exptime) tasks getter
        hasWriter version now =
      ⟨some Protocol.Response.touched, tasks, [], 0⟩ := rfl

/-- The 24-byte binary header with magic 0x80, opcode GET, key_length 4
and total_body_length 0 — a header whose declared body is smaller than
its declared key. -/
def c7Bytes : List Nat :=
  [0x80, 0x00, 0x00, 0x04] ++ List.replicate 20 0

/-- C7: the claim says the parsers never panic, and in particular that
`parse_binary` tolerates headers with `total_body_length <
extras_length + key_length`; on exactly such a header the source's
unchecked `usize` subtraction at src/platypus/src/protocol/binary.rs:165
underflows — a panic in a debug build, a wrapped length followed by an
aborting `vec![0u8; ...]` allocation in release — modelled by the
`crash` result, which `recv_command` propagates. -/
theorem c7_parse_binary_underflow_crashes :
    Protocol.parse_binary c7Bytes = .crash ∧
    Protocol.recv_command c7Bytes = .crash := by decide

/-- C2: when a per-key task already exists and has a cached last result,
`get_or_create_task` touches it (its liveness deadline becomes
`now + ttl`) and returns the cached value without invoking the source
(the whole effect is the touched entry, no jobs, `invoked = false`);
when the existing task has no cached value the call falls through to a
refresh and the source is invoked. -/
theorem c2_engine_cache_hit {V : Type} (tasks : Monitor.TaskMap V)
    (key : String) (getter : String → Option V) (hasWriter : Bool) (now : Nat)
    (t : Monitor.MonitorTask V) (h : lookupA tasks key = some t) :
    (∀ v, t.last_result = some v →
      Monitor.get_or_create_task tasks key getter hasWriter now =
        ⟨some v, updateA tasks key (t.touch now), false, []⟩ ∧
      (t.touch now).untl = now + t.ttl) ∧
    (t.last_result = none →
      (Monitor.get_or_create_task tasks key getter hasWriter now).invoked
        = true) := by
  constructor
  · intro v hv
    refine ⟨?_, rfl⟩
    unfold Monitor.get_or_create_task
    rw [h]
    have hv2 : (t.touch now).last_result = some v := hv
    simp only [hv2]
  · intro hv
    unfold Monitor.get_or_create_task
    rw [h]
    have hv2 : (t.touch now).last_result = none := hv
    simp only [hv2, Monitor.create_task]

/-- Concrete getter for the C2 witness. -/
def c2Getter : String → Option String := fun _ => some "fresh"

/-- Concrete cached task for the C2 witness. -/
def c2Task : Monitor.MonitorTask String :=
  { interval := 5, ttl := 12, untl := 3, updated_at := 0, key := some "k",
    last_result := some "cached", getter := c2Getter, hasTarget := false }

/-- Concrete task table for the C2 witness. -/
def c2Tasks : Monitor.TaskMap String := [("k", c2Task)]

/-- Witness for C2 at a concrete table: the cached value comes back, the
entry is the touched task, the source is not invoked. -/
theorem c2_engine_cache_hit_witness :
    Monitor.get_or_create_task c2Tasks "k" c2Getter false 7 =
      ⟨some "cached", updateA c2Tasks "k" (c2Task.touch 7), false, []⟩ ∧
    (c2Task.touch 7).untl = 7 + c2Task.ttl :=
  (c2_engine_cache_hit c2Tasks "k" c2Getter false 7 c2Task rfl).1 "cached" rfl

/-- Concrete getter for the C3 fixtures. -/
def c3Getter : String → Option String := fun _ => some "r"

/-- A live task with the defaults `get_or_create_task` installs
(interval 5 s, ttl 12 s), a cached value, and `updated_at = 0`. -/
def c3Task : Monitor.MonitorTask String :=
  { interval := 5, ttl := 12, untl := 100, updated_at := 0, key := some "k",
    last_result := some "r", getter := c3Getter, hasTarget := false }

/-- C3 counterexample: at `now = 6` the tick of a live task with
`updated_at = 0`, `ttl = 12` and the created interval 5 does invoke the
source (6 > 0 + 5), yet the claimed cadence predicate
`now > updated_at + ttl / 2` (6 > 6) is false — the refresh cadence is
the fixed 5-second interval, not ttl/2. -/
theorem c3_counterexample_cadence_not_half_ttl :
    (c3Task.tick 6).2.2.2 = true ∧
    c3Task.has_expired 6 = false ∧
    c3Task.updated_at = 0 ∧ c3Task.ttl = 12 ∧
    ¬ ((6 : Nat) > c3Task.updated_at + c3Task.ttl / 2) :=
  ⟨rfl, rfl, rfl, rfl, by decide⟩

/-- C3 amended: for every live, non-expired task the periodic tick
triggers a refresh (a source invocation) exactly when the current time
exceeds the task's `updated_at` plus its fixed `interval`; the interval
of a task created by `get_or_create_task` is 5 seconds (and its ttl 12
seconds), independent of any response-carried ttl. -/
theorem c3_tick_refresh_at_fixed_interval {V : Type}
    (t : Monitor.MonitorTask V) (now : Nat)
    (hlive : t.has_expired now = false)
    (tasks : Monitor.TaskMap V) (key : String) (getter : String → Option V)
    (hasWriter : Bool) (hnew : lookupA tasks key = none) :
    ((t.tick now).2.2.2 = true ↔ now > t.updated_at + t.interval) ∧
    ∃ t2,
      lookupA (Monitor.get_or_create_task tasks key getter hasWriter now).tasks
          key = some t2 ∧
      t2.interval = 5 ∧ t2.ttl = 12 := by
  constructor
  · by_cases hgt : now > t.updated_at + t.interval
    · simp [Monitor.MonitorTask.tick, hlive, hgt]
    · simp [Monitor.MonitorTask.tick, hlive, hgt]
  · unfold Monitor.get_or_create_task
    rw [hnew]
    unfold Monitor.create_task
    cases hw : hasWriter with
    | false =>
        cases hget : getter key with
        | none =>
            refine ⟨_, lookupA_updateA_self _ _ _, ?_, ?_⟩ <;>
              simp [Monitor.MonitorTask.get, Monitor.MonitorTask.new,
                Monitor.MonitorTask.setInterval, Monitor.MonitorTask.setKey,
                Monitor.MonitorTask.touch, hget]
        | some v =>
            refine ⟨_, lookupA_updateA_self _ _ _, ?_, ?_⟩ <;>
              simp [Monitor.MonitorTask.get, Monitor.MonitorTask.new,
                Monitor.MonitorTask.setInterval, Monitor.MonitorTask.setKey,
                Monitor.MonitorTask.touch, hget]
    | true =>
        cases hget : getter key with
        | none =>
            refine ⟨_, lookupA_updateA_self _ _ _, ?_, ?_⟩ <;>
              simp [Monitor.MonitorTask.get, Monitor.MonitorTask.new,
                Monitor.MonitorTask.setInterval, Monitor.MonitorTask.setKey,
                Monitor.MonitorTask.setTarget, Monitor.MonitorTask.touch, hget]
        | some v =>
            refine ⟨_, lookupA_updateA_self _ _ _, ?_, ?_⟩ <;>
              simp [Monitor.MonitorTask.get, Monitor.MonitorTask.new,
                Monitor.MonitorTask.setInterval, Monitor.MonitorTask.setKey,
                Monitor.MonitorTask.setTarget, Monitor.MonitorTask.touch, hget]

/-- Witness for the amended C3 at a concrete live task and an empty
table. -/
theorem c3_tick_refresh_at_fixed_interval_witness :
    (((c3Task.tick 6).2.2.2 = true ↔ (6 : Nat) > c3Task.updated_at + c3Task.interval) ∧
      ∃ t2,
        lookupA (Monitor.get_or_create_task ([] : Monitor.TaskMap String)
            "k" c3Getter false 6).tasks "k" = some t2 ∧
        t2.interval = 5 ∧ t2.ttl = 12) :=
  c3_tick_refresh_at_fixed_interval c3Task 6 rfl [] "k" c3Getter false rfl

/-- Modelled from the spec: the weight of a cached task,
`len(key) + len(value-if-present) + fixed overhead` in bytes (the
spec's capture term is absent because the code's `MonitorTask` stores no
request or captures). -/
def taskWeight (overhead : Nat) (kt : String × Monitor.MonitorTask String) :
    Nat :=
  (utf8Encode kt.1).length +
    (match kt.2.last_result with
     | some v => (utf8Encode v).length
     | none => 0) + overhead

/-- Modelled from the spec: the total byte weight of the task table. -/
def totalWeight (overhead : Nat) (tasks : Monitor.TaskMap String) : Nat :=
  (tasks.map (taskWeight overhead)).sum

/-- A sequence of `get_or_create_task` operations
(key, getter, writer?, instant), folded over the task table. -/
def run_get_or_create {V : Type} (tasks : Monitor.TaskMap V) :
    List (String × (String → Option V) × Bool × Nat) → Monitor.TaskMap V
| [] => tasks
| op :: rest =>
    run_get_or_create
      (Monitor.get_or_create_task tasks op.1 op.2.1 op.2.2.1 op.2.2.2).tasks
      rest

theorem get_or_create_preserves_presence {V : Type}
    (tasks : Monitor.TaskMap V) (key : String) (getter : String → Option V)
    (hasWriter : Bool) (now : Nat) (k : String)
    (h : (lookupA tasks k).isSome) :
    (lookupA (Monitor.get_or_create_task tasks key getter hasWriter now).tasks
      k).isSome := by
  unfold Monitor.get_or_create_task
  cases hl : lookupA tasks key with
  | none =>
      unfold Monitor.create_task
      exact lookupA_updateA_isSome _ _ _ _ h
  | some t =>
      cases hv : (t.touch now).last_result with
      | some v =>
          simp only [hv]
          exact lookupA_updateA_isSome _ _ _ _ h
      | none =>
          simp only [hv]
          unfold Monitor.create_task
          exact lookupA_updateA_isSome _ _ _ _ (lookupA_updateA_isSome _ _ _ _ h)

theorem get_or_create_key_present {V : Type}
    (tasks : Monitor.TaskMap V) (key : String) (getter : String → Option V)
    (hasWriter : Bool) (now : Nat) :
    (lookupA (Monitor.get_or_create_task tasks key getter hasWriter now).tasks
      key).isSome := by
  unfold Monitor.get_or_create_task
  cases hl : lookupA tasks key with
  | none =>
      unfold Monitor.create_task
      simp [lookupA_updateA_self]
  | some t =>
      cases hv : (t.touch now).last_result with
      | some v => simp only [hv]; simp [lookupA_updateA_self]
      | none =>
          simp only [hv]
          unfold Monitor.create_task
          simp [lookupA_updateA_self]

/-- Concrete getter for the C4 counterexample. -/
def c4Getter : String → Option String := fun _ => some "value"

/-- C4 counterexample: the engine has no byte budget and never evicts.
Against a configured budget of 0 bytes, a single `get_or_create_task`
for key "test" (value "value") leaves a table of total weight 9 > 0
(spec weight formula, fixed overhead 0) — and, the table only ever
growing, no budget is ever restored. -/
theorem c4_counterexample_budget_exceeded :
    totalWeight 0
        (Monitor.get_or_create_task ([] : Monitor.TaskMap String) "test"
          c4Getter false 0).tasks = 9 ∧
    ¬ ((9 : Nat) ≤ 0) :=
  ⟨rfl, by decide⟩

/-- C4 amended: after any sequence of `get_or_create_task` operations no
task is ever evicted — every key present before is present after, and
the operated key's task is present — so the task table is not bounded by
any byte budget. -/
theorem c4_no_eviction {V : Type} (tasks : Monitor.TaskMap V)
    (ops : List (String × (String → Option V) × Bool × Nat)) (k : String)
    (key : String) (getter : String → Option V) (hasWriter : Bool) (now : Nat)
    (h : (lookupA tasks k).isSome) :
    (lookupA (run_get_or_create tasks ops) k).isSome ∧
    (lookupA (Monitor.get_or_create_task tasks key getter hasWriter now).tasks
      key).isSome := by
  constructor
  · induction ops generalizing tasks with
    | nil => exact h
    | cons op rest ih =>
        exact ih _ (get_or_create_preserves_presence _ _ _ _ _ _ h)
  · exact get_or_create_key_present _ _ _ _ _

/-- Concrete starting table for the C4 witness. -/
def c4Tasks : Monitor.TaskMap String :=
  [("k", { interval := 5, ttl := 12, untl := 3, updated_at := 0,
           key := some "k", last_result := some "cached",
           getter := c4Getter, hasTarget := false })]

/-- Witness for the amended C4 at a concrete table and operation
sequence. -/
theorem c4_no_eviction_witness :
    (lookupA (run_get_or_create c4Tasks
        [("a", c4Getter, false, 1), ("b", c4Getter, true, 2)]) "k").isSome ∧
    (lookupA (Monitor.get_or_create_task c4Tasks "test" c4Getter false 3).tasks
      "test").isSome :=
  c4_no_eviction c4Tasks [("a", c4Getter, false, 1), ("b", c4Getter, true, 2)]
    "k" "test" c4Getter false 3 rfl

/-- C1: `Router::rule` is first-match-wins — a returned pair is produced
by some rule index whose every predecessor fails to match and whose own
match produced exactly the returned request, and the scan returns
nothing precisely when no rule matches. -/
theorem c1_router_first_match (rules : Router) (key : String) :
    (∀ req r, Router.rule rules key = some (req, r) →
      ∃ i, ∃ hi : i < rules.length,
        rules.get ⟨i, hi⟩ = r ∧
        (rules.get ⟨i, hi⟩).match_key key = some req ∧
        ∀ j, ∀ hj : j < i,
          (rules.get ⟨j, Nat.lt_trans hj hi⟩).match_key key = none) ∧
    (Router.rule rules key = none ↔
      ∀ i, ∀ hi : i < rules.length,
        (rules.get ⟨i, hi⟩).match_key key = none) := by
  induction rules with
  | nil =>
      constructor
      · intro req r hsome
        simp [Router.rule] at hsome
      · simp [Router.rule]
  | cons rule rest ih =>
      constructor
      · intro req r hsome
        cases hm : rule.match_key key with
        | some req0 =>
            have : some (req0, rule) = some (req, r) := by
              simpa [Router.rule, hm] using hsome
            obtain ⟨h1, h2⟩ := Prod.mk.injEq .. ▸ Option.some.injEq .. ▸ this
            refine ⟨0, Nat.succ_pos _, ?_, ?_, ?_⟩
            · simpa [List.get] using congrArg Prod.snd (Option.some.inj this)
            · simpa [List.get, hm] using congrArg Prod.fst (Option.some.inj this)
            · intro j hj
              exact absurd hj (Nat.not_lt_zero j)
        | none =>
            have hrec : Router.rule rest key = some (req, r) := by
              simpa [Router.rule, hm] using hsome
            obtain ⟨i, hi, hget, hmatch, hprev⟩ := (ih.1) req r hrec
            refine ⟨i + 1, Nat.succ_lt_succ hi, ?_, ?_, ?_⟩
            · simpa [List.get] using hget
            · simpa [List.get] using hmatch
            · intro j hj
              cases j with
              | zero => simpa [List.get] using hm
              | succ j0 =>
                  have hj0 : j0 < i := Nat.lt_of_succ_lt_succ hj
                  simpa [List.get] using hprev j0 hj0
      · cases hm : rule.match_key key with
        | some req0 =>
            constructor
            · intro hnone
              simp [Router.rule, hm] at hnone
            · intro hall
              have := hall 0 (Nat.succ_pos _)
              simp [List.get] at this
              rw [hm] at this
              cases this
        | none =>
            constructor
            · intro hnone
              have hrec : Router.rule rest key = none := by
                simpa [Router.rule, hm] using hnone
              intro i hi
              cases i with
              | zero => simpa [List.get] using hm
              | succ i0 =>
                  have hi0 : i0 < rest.length := Nat.lt_of_succ_lt_succ hi
                  simpa [List.get] using (ih.2.mp hrec) i0 hi0
            · intro hall
              have hrest : ∀ i, ∀ hi : i < rest.length,
                  (rest.get ⟨i, hi⟩).match_key key = none := by
                intro i hi
                simpa [List.get] using hall (i + 1) (Nat.succ_lt_succ hi)
              simp [Router.rule, hm]
              exact ih.2.mpr hrest

/-- A compiled regex that matches nothing (C1 witness fixture). -/
def c1NoMatchRegex : Regex := fun _ => none

/-- The compiled regex `^echo1/(?<k>.+)$` (C1 witness fixture): matches
keys with prefix `echo1/` and a nonempty remainder captured as `k`. -/
def c1Regex : Regex := fun key =>
  if Protocol.startsWithStr key "echo1/" ∧ key.data.drop 6 ≠ [] then
    some [("k", String.mk (key.data.drop 6))]
  else none

/-- First (never-matching) rule of the C1 witness router. -/
def c1Rule1 : Rule := ⟨c1NoMatchRegex, SourceDef.echo MonitorConfig.default "miss"⟩

/-- Second (matching) rule of the C1 witness router. -/
def c1Rule2 : Rule :=
  ⟨c1Regex, SourceDef.echo MonitorConfig.default "echo1 = {k}"⟩

/-- The request produced for key `echo1/abc` by the C1 witness router. -/
def c1Req : Request :=
  ⟨"echo1/abc", [("k", "abc"), ("$key", "echo1/abc")], none⟩

/-- Witness for C1 on a concrete two-rule router: the scan returns the
second rule, whose predecessor does not match. -/
theorem c1_router_first_match_witness :
    ∃ i, ∃ hi : i < ([c1Rule1, c1Rule2] : Router).length,
      ([c1Rule1, c1Rule2] : Router).get ⟨i, hi⟩ = c1Rule2 ∧
      (([c1Rule1, c1Rule2] : Router).get ⟨i, hi⟩).match_key "echo1/abc" =
        some c1Req ∧
      ∀ j, ∀ hj : j < i,
        (([c1Rule1, c1Rule2] : Router).get
          ⟨j, Nat.lt_trans hj hi⟩).match_key "echo1/abc" = none :=
  (c1_router_first_match [c1Rule1, c1Rule2] "echo1/abc").1 c1Req c1Rule2 rfl

/-- C5: the spec's 28 framing bytes parse to `Command::Get(["test"])`
with consumed length 28 and opaque 0, `recv_command` carries dialect
`Binary { opaque = 0 }`, and — for any configured getter that yields a
value for "test" — the server's serialized binary response to that
command begins with the response magic byte 0x81. -/
theorem c5_binary_get_framing (g : String → Option String) (v : String)
    (hasWriter : Bool) (version : String) (now : Nat)
    (hg : g "test" = some v) :
    Protocol.parse_binary c5Bytes =
      .ok (Protocol.Command.get ["test"], 0, 28) ∧
    Protocol.recv_command c5Bytes =
      .ok ⟨Protocol.Command.get ["test"], Protocol.ProtocolType.binary 0⟩ ∧
    ∃ rest tasks jobs,
      Server.server_step [] g hasWriter version now c5Bytes =
        .ok (some (0x81 :: rest), tasks, jobs) := by
  refine ⟨by decide, by decide, ?_⟩
  unfold Server.server_step
  rw [show Protocol.recv_command c5Bytes =
    .ok ⟨Protocol.Command.get ["test"], Protocol.ProtocolType.binary 0⟩ from
      by decide]
  cases hasWriter <;>
    simp [Server.handle_command, Server.get_items, Monitor.get_or_create_task,
      Monitor.create_task, lookupA, Monitor.MonitorTask.get,
      Monitor.MonitorTask.new, Monitor.MonitorTask.setInterval,
      Monitor.MonitorTask.setKey, Monitor.MonitorTask.setTarget,
      Monitor.MonitorTask.touch, hg, Protocol.Response.serialize,
      Protocol.serialize_binary_response, Protocol.serialize_binary_value_item,
      Protocol.BinaryHeader.write_to, Protocol.be2, Protocol.be4, Protocol.be8]

/-- Concrete getter for the C5 witness. -/
def c5Getter : String → Option String :=
  fun k => if k = "test" then some "sample" else none

/-- Witness for C5 with a concrete getter, writer flag and instant. -/
theorem c5_binary_get_framing_witness :
    Protocol.parse_binary c5Bytes =
      .ok (Protocol.Command.get ["test"], 0, 28) ∧
    Protocol.recv_command c5Bytes =
      .ok ⟨Protocol.Command.get ["test"], Protocol.ProtocolType.binary 0⟩ ∧
    ∃ rest tasks jobs,
      Server.server_step [] c5Getter false "0.0.0" 0 c5Bytes =
        .ok (some (0x81 :: rest), tasks, jobs) :=
  c5_binary_get_framing c5Getter "sample" false "0.0.0" 0 rfl

/-- A binary request frame with the unsupported opcode 0x05
(INCREMENT): magic 0x80, zero key/extras/body. -/
def c6Bytes : List Nat :=
  [0x80, 0x05] ++ List.replicate 22 0

/-- Concrete getter for the C6 fixtures. -/
def c6Getter : String → Option String := fun _ => some "x"

/-- C6 counterexample: on a binary request with unsupported opcode 0x05
the server replies with the text line `ERROR Parse error\r\n` — the
reply's first byte is 0x45 (`E`), not the binary response magic 0x81,
and it differs from the binary UNKNOWN_COMMAND (0x0081) packet the
claim names. -/
theorem c6_counterexample_text_error_reply :
    Server.server_step [] c6Getter false "0.0.0" 0 c6Bytes =
      .ok (some (utf8Encode "ERROR Parse error\r\n"), [], []) ∧
    (utf8Encode "ERROR Parse error\r\n").head? = some 0x45 ∧
    utf8Encode "ERROR Parse error\r\n" ≠
      (Protocol.BinaryHeader.new_response 0x0a 0 0 0x0081 0 0).write_to :=
  ⟨rfl, by decide, by decide⟩

theorem parse_binary_unsupported_err (data : List Nat)
    (h24 : 24 ≤ data.length)
    (hmagic : Protocol.byteAt data 0 = 0x80)
    (hnu : ¬ (Protocol.rd4 data 8 <
      Protocol.byteAt data 4 + Protocol.rd2 data 2))
    (hop : Protocol.byteAt data 1 ≠ 0x00 ∧ Protocol.byteAt data 1 ≠ 0x0c ∧
      Protocol.byteAt data 1 ≠ 0x0b ∧ Protocol.byteAt data 1 ≠ 0x07 ∧
      Protocol.byteAt data 1 ≠ 0x10 ∧ Protocol.byteAt data 1 ≠ 0x04) :
    ∃ m, Protocol.parse_binary data = Protocol.PResult.err m := by
  obtain ⟨o1, o2, o3, o4, o5, o6⟩ := hop
  unfold Protocol.parse_binary
  rw [if_neg (by omega)]
  simp only [Protocol.BinaryHeader.read_from]
  rw [if_neg (by simp [hmagic])]
  rw [if_neg hnu]
  split
  · exact ⟨_, rfl⟩
  · split
    · exact ⟨_, rfl⟩
    · simp only [if_neg (show ¬ (Protocol.byteAt data 1 = 0x00 ∨
          Protocol.byteAt data 1 = 0x0c) from by simp [o1, o2]),
        if_neg o3, if_neg o4, if_neg o5, if_neg o6]
      exact ⟨_, rfl⟩

/-- C6 amended: for every binary request (first byte 0x80, full 24-byte
header, no length underflow) whose opcode is not one of GET(0x00),
GETK(0x0c), VERSION(0x0b), QUIT(0x07), STAT(0x10), DELETE(0x04),
`parse_binary` fails and the server's reply on the wire is the Error
response serialized in the TEXT dialect — the line
`ERROR Parse error\r\n` — not a binary packet with status
UNKNOWN_COMMAND; the engine state is unchanged and no job is enqueued. -/
theorem c6_unsupported_opcode_gets_text_parse_error (data : List Nat)
    (tasks : Monitor.TaskMap String) (getter : String → Option String)
    (hasWriter : Bool) (version : String) (now : Nat)
    (hhead : data.head? = some 0x80)
    (h24 : 24 ≤ data.length)
    (hnu : ¬ (Protocol.rd4 data 8 <
      Protocol.byteAt data 4 + Protocol.rd2 data 2))
    (hop : Protocol.byteAt data 1 ≠ 0x00 ∧ Protocol.byteAt data 1 ≠ 0x0c ∧
      Protocol.byteAt data 1 ≠ 0x0b ∧ Protocol.byteAt data 1 ≠ 0x07 ∧
      Protocol.byteAt data 1 ≠ 0x10 ∧ Protocol.byteAt data 1 ≠ 0x04) :
    Server.server_step tasks getter hasWriter version now data =
      .ok (some (utf8Encode "ERROR Parse error\r\n"), tasks, []) := by
  cases data with
  | nil => cases hhead
  | cons b rest =>
      have hb : b = 0x80 := Option.some.inj hhead
      subst hb
      obtain ⟨m, hm⟩ :=
        parse_binary_unsupported_err (0x80 :: rest) h24 rfl hnu hop
      have hrecv : Protocol.recv_command (0x80 :: rest) = .err m := by
        unfold Protocol.recv_command
        simp [hm]
      unfold Server.server_step
      rw [hrecv]
      rfl

/-- Witness for the amended C6 at the concrete opcode-0x05 frame. -/
theorem c6_unsupported_opcode_witness :
    Server.server_step [] c6Getter false "0.0.0" 0 c6Bytes =
      .ok (some (utf8Encode "ERROR Parse error\r\n"), [], []) :=
  c6_unsupported_opcode_gets_text_parse_error c6Bytes [] c6Getter false
    "0.0.0" 0 rfl (by decide) (by decide)
    ⟨by decide, by decide, by decide, by decide, by decide, by decide⟩

/-- Echo source `echo1` from the spec scenario. -/
def c8Echo1 : SourceDef := SourceDef.echo MonitorConfig.default "echo1 = {k}"

/-- Echo source `echo2` from the spec scenario. -/
def c8Echo2 : SourceDef := SourceDef.echo MonitorConfig.default "echo2 = {k}"

/-- The Merge rules `[{key:[echo1],source:echo1,Inherit},
{key:[echo2],source:echo2,Inherit}]`. -/
def c8Rules : List MergeRule :=
  [⟨["echo1"], "echo1", RuleArgs.inherit⟩, ⟨["echo2"], "echo2", RuleArgs.inherit⟩]

/-- The Merge source `both`. -/
def c8Both : SourceDef := SourceDef.mergeSrc MonitorConfig.default "json" c8Rules

/-- The source registry of the scenario. -/
def c8Sources : List (String × SourceDef) :=
  [("echo1", c8Echo1), ("echo2", c8Echo2), ("both", c8Both)]

/-- The compiled regex `^both/(?<k>.+)$`: matches keys with prefix
`both/` and a nonempty remainder captured as `k`. -/
def c8Regex : Regex := fun key =>
  if Protocol.startsWithStr key "both/" ∧ key.data.drop 5 ≠ [] then
    some [("k", String.mk (key.data.drop 5))]
  else none

/-- The routed request for key `both/test_data`. -/
def c8Req : Request :=
  ⟨"both/test_data", [("k", "test_data"), ("$key", "both/test_data")], none⟩

/-- The routed request with the sources handle attached (as
`get_or_create` does before calling the source). -/
def c8ReqS : Request := c8Req.with_sources c8Sources

/-- The JSON object the spec scenario expects. -/
def c8Expected : JValue :=
  JValue.obj
    [("echo1", JValue.str "echo1 = test_data"),
     ("echo2", JValue.str "echo2 = test_data")]

/-- C8: routing `both/test_data` through `^both/(?<k>.+)$` yields the
capture `k = test_data`; the Merge source's value is the serialization
of exactly the JSON object
`{"echo1":"echo1 = test_data","echo2":"echo2 = test_data"}` (given that
the echoed child values are not themselves valid JSON, which is what
`serde_json` decides on them); and in general a merged child value is
inserted at the rule's key path as its JSON parse when it parses and as
a JSON string otherwise. -/
theorem c8_merge_fanout (jsonParse : String → Option JValue) (now : Nat)
    (h1 : jsonParse "echo1 = test_data" = none)
    (h2 : jsonParse "echo2 = test_data" = none) :
    Router.rule [⟨c8Regex, c8Both⟩] "both/test_data" =
      some (c8Req, ⟨c8Regex, c8Both⟩) ∧
    (SourceDef.call jsonParse now 2 c8Both c8ReqS).value =
      some (serializeJson c8Expected) ∧
    serializeJson c8Expected =
      "\x7b\"echo1\":\"echo1 = test_data\",\"echo2\":\"echo2 = test_data\"\x7d" ∧
    (∀ (v : String) (path : List String) (req0 : Request),
      req0.sources =
          some [("s", SourceDef.fnSrc MonitorConfig.default (fun _ => some v))] →
      (SourceDef.call jsonParse now 1
          (SourceDef.mergeSrc MonitorConfig.default "json"
            [⟨path, "s", RuleArgs.inherit⟩]) req0).value =
        some (serializeJson (JValue.obj (set_nested_value [] path
          (match jsonParse v with
           | some j => j
           | none => JValue.str v))))) := by
  refine ⟨rfl, ?_, by decide, ?_⟩
  · have r1 : replace_placeholders "echo1 = {k}"
        [("k", "test_data"), ("$key", "both/test_data")] =
        "echo1 = test_data" := by decide
    have r2 : replace_placeholders "echo2 = {k}"
        [("k", "test_data"), ("$key", "both/test_data")] =
        "echo2 = test_data" := by decide
    simp [SourceDef.call, c8Both, c8ReqS, c8Req, c8Sources, c8Rules, c8Echo1,
      c8Echo2, Request.with_sources, lookupA, merge_child_request, r1, r2, h1,
      h2, SrcResponse.with_value, SrcResponse.with_ttl, SrcResponse.with_expiry,
      SrcResponse.new, c8Expected]
    rfl
  · intro v path req0 hreq
    simp [SourceDef.call, hreq, lookupA, merge_child_request,
      SrcResponse.with_value, SrcResponse.with_ttl, SrcResponse.with_expiry,
      SrcResponse.new]

/-- The child request of the C8 witness: a request whose sources handle
holds one function source returning the JSON text `[1,2]`. -/
def c8WitReq : Request :=
  ⟨"kk", [],
   some [("s", SourceDef.fnSrc MonitorConfig.default (fun _ => some "[1,2]"))]⟩

/-- Witness for C8 under the concrete (everything-fails) JSON parser. -/
theorem c8_merge_fanout_witness :
    Router.rule [⟨c8Regex, c8Both⟩] "both/test_data" =
      some (c8Req, ⟨c8Regex, c8Both⟩) ∧
    (SourceDef.call (fun _ => none) 0 2 c8Both c8ReqS).value =
      some (serializeJson c8Expected) ∧
    (SourceDef.call (fun _ => none) 0 1
        (SourceDef.mergeSrc MonitorConfig.default "json"
          [⟨["p"], "s", RuleArgs.inherit⟩]) c8WitReq).value =
      some (serializeJson (JValue.obj (set_nested_value [] ["p"]
        (JValue.str "[1,2]")))) := by
  have T := c8_merge_fanout (fun _ => none) 0 rfl rfl
  exact ⟨T.1, T.2.1, T.2.2.2 "[1,2]" ["p"] c8WitReq rfl⟩

theorem foldl_congr_id {α β : Type} (g : α → β → α) (l : List β)
    (h : ∀ b, b ∈ l → ∀ a, g a b = a) : ∀ acc, l.foldl g acc = acc := by
  induction l with
  | nil => intro acc; rfl
  | cons b rest ih =>
      intro acc
      have hb := h b (List.mem_cons_self b rest) acc
      show rest.foldl g (g acc b) = acc
      rw [hb]
      exact ih (fun x hx a => h x (List.mem_cons_of_mem _ hx) a) acc

/-- C10: a Merge call produces a value exactly when the request carries a
sources handle; with a handle the value is always the serialization of
the merged JSON object — in particular the empty object when every rule
is skipped (missing source name) or every consulted child returns no
value — and without a handle there is no value. -/
theorem c10_merge_value_iff_sources (jsonParse : String → Option JValue)
    (now fuel : Nat) (cfg : MonitorConfig) (fmt : String)
    (rules : List MergeRule) (req : Request) :
    ((SourceDef.call jsonParse now (fuel + 1)
        (SourceDef.mergeSrc cfg fmt rules) req).value.isSome ↔
      req.sources.isSome) ∧
    (req.sources = none →
      (SourceDef.call jsonParse now (fuel + 1)
        (SourceDef.mergeSrc cfg fmt rules) req).value = none) ∧
    (∀ s, req.sources = some s →
      ∃ fields,
        (SourceDef.call jsonParse now (fuel + 1)
            (SourceDef.mergeSrc cfg fmt rules) req).value =
          some (serializeJson (JValue.obj fields))) ∧
    (∀ s, req.sources = some s →
      (∀ r, r ∈ rules → ∀ src, lookupA s r.source = some src →
        (SourceDef.call jsonParse now fuel src
          (merge_child_request req s r)).value = none) →
      (SourceDef.call jsonParse now (fuel + 1)
          (SourceDef.mergeSrc cfg fmt rules) req).value = some "\x7b\x7d") := by
  obtain ⟨rk, rc, rs⟩ := req
  cases rs with
  | none =>
      refine ⟨?_, fun _ => rfl, ?_, ?_⟩
      · constructor
        · intro h
          exact absurd h (by simp [SourceDef.call, SrcResponse.new,
            SrcResponse.with_ttl, SrcResponse.with_expiry])
        · intro h
          simp at h
      · intro s hs
        cases hs
      · intro s hs
        cases hs
  | some s =>
      have hval :
          (SourceDef.call jsonParse now (fuel + 1)
              (SourceDef.mergeSrc cfg fmt rules) ⟨rk, rc, some s⟩).value =
            some (serializeJson (JValue.obj (rules.foldl
              (fun acc rule =>
                match lookupA s rule.source with
                | none => acc
                | some src =>
                  match (SourceDef.call jsonParse now fuel src
                      (merge_child_request ⟨rk, rc, some s⟩ s rule)).value with
                  | none => acc
                  | some v =>
                    set_nested_value acc rule.key
                      (match jsonParse v with
                       | some parsed => parsed
                       | none => JValue.str v)) []))) := rfl
      refine ⟨?_, ?_, ?_, ?_⟩
      · rw [hval]; simp
      · intro h; cases h
      · intro s0 hs0
        exact ⟨_, hval⟩
      · intro s0 hs0 hall
        have hseq : s = s0 := Option.some.inj hs0
        subst hseq
        rw [hval]
        have hfold := foldl_congr_id
          (fun acc rule =>
            match lookupA s rule.source with
            | none => acc
            | some src =>
              match (SourceDef.call jsonParse now fuel src
                  (merge_child_request ⟨rk, rc, some s⟩ s rule)).value with
              | none => acc
              | some v =>
                set_nested_value acc rule.key
                  (match jsonParse v with
                   | some parsed => parsed
                   | none => JValue.str v)) rules ?_ []
        · rw [hfold]
          rfl
        · intro r hr a
          cases hl : lookupA s r.source with
          | none => simp only [hl]
          | some src =>
              have hnone := hall r hr src hl
              simp only [hl, hnone]

/-- A merge rule whose source name resolves to nothing (C10 witness). -/
def c10Rules : List MergeRule := [⟨["a"], "missing", RuleArgs.inherit⟩]

/-- A request carrying an empty sources handle (C10 witness). -/
def c10Req : Request := ⟨"kk", [], some []⟩

/-- A request without a sources handle (C10 witness). -/
def c10ReqNoSources : Request := ⟨"kk", [], none⟩

/-- Witness for C10: with an (empty) handle the merge yields the empty
JSON object; without a handle it yields no value. -/
theorem c10_merge_value_iff_sources_witness :
    ((SourceDef.call (fun _ => none) 0 (0 + 1)
        (SourceDef.mergeSrc MonitorConfig.default "json" c10Rules)
        c10Req).value.isSome ↔ c10Req.sources.isSome) ∧
    (SourceDef.call (fun _ => none) 0 (0 + 1)
        (SourceDef.mergeSrc MonitorConfig.default "json" c10Rules)
        c10Req).value = some "\x7b\x7d" ∧
    (SourceDef.call (fun _ => none) 0 (0 + 1)
        (SourceDef.mergeSrc MonitorConfig.default "json" c10Rules)
        c10ReqNoSources).value = none := by
  have T1 := c10_merge_value_iff_sources (fun _ => none) 0 0
    MonitorConfig.default "json" c10Rules c10Req
  have T2 := c10_merge_value_iff_sources (fun _ => none) 0 0
    MonitorConfig.default "json" c10Rules c10ReqNoSources
  refine ⟨T1.1, T1.2.2.2 [] rfl ?_, T2.2.1 rfl⟩
  intro r hr src h
  simp [lookupA] at h
